import Mathlib

/-!
Verification of the scroll-reveal / animation-orchestration layer and the
surrounding components of the OmniData.AI repository, as a shallow embedding.

The embedded source files:
  * `ScrollSection` (src/unnamed/part_012): the per-section component — class
    template, `useInView` observer, gsap context with an optional parallax
    tween and a reveal tween gated on the in-view signal.
  * `RootLayout` (src/app/layout.tsx): the smooth-scroll container and the
    route-change reset effect.
  * `ScrollScene` (src/components/ScrollScene.tsx): gsap context holding a
    base reveal tween and an optional parallax tween; cleanup `ctx.revert()`.
  * the website observer (src/website/scroll.js): an IntersectionObserver that
    adds the class `visible` on intersection and never removes it.
  * `DataFeed` (src/components/ScrollSpinner.tsx): cursor pagination wiring.
  * `ProtectedRoute` (src/frontend/src/__tests__/scroll.test.js): route guard.
-/

/-- The two kinds of tween a section's gsap context can own: the enter/exit
reveal tween (`gsap.fromTo` on opacity and y) and the scrub-linked parallax
tween (`gsap.to` with `y: '30%'`). -/
inductive Tween
  | reveal
  | parallax
deriving DecidableEq, Repr

/-- Class set of the `<section>` rendered by `ScrollSection`
(src/unnamed/part_012, lines 82-94).  The source template is
  relative min-h-screen w-full ${snap ? 'snap-start snap-always' : ''} ${className}
The class attribute is a space-joined word list; we model it as the list of
words, with the caller's `className` prop given by its own word list.  The
template references only `snap` and `className`: neither the in-view signal
nor `parallax` nor `trigger` occur in it, so the rendered class set cannot
depend on them.  `inView` is threaded through as an argument to state that
independence. -/
def scrollSectionClasses (snap : Bool) (className : List String)
    (inView : Bool) : List String :=
  ["relative", "min-h-screen", "w-full"]
    ++ (if snap then ["snap-start", "snap-always"] else [])
    ++ className

/-- The tweens created by `ScrollSection`'s mount effect
(src/unnamed/part_012, lines 43-80): nothing when `trigger` is false (the
effect returns before creating the gsap context); otherwise the parallax
tween when `parallax`, and the reveal `fromTo` tween when the observer
reports in view. -/
def scrollSectionTweens (trigger parallax inView : Bool) : List Tween :=
  if trigger then
    (if parallax then [Tween.parallax] else [])
      ++ (if inView then [Tween.reveal] else [])
  else []

/-- Converged visual state of a section driven by the reveal tween's
scroll trigger. -/
inductive VState
  | Hidden
  | Revealed
deriving DecidableEq, Repr

/-- The four toggle events of a gsap `ScrollTrigger`: entering forward past
the start, leaving forward past the end, re-entering backward past the end,
and leaving backward past the start. -/
inductive TEvent
  | onEnter
  | onLeave
  | onEnterBack
  | onLeaveBack
deriving DecidableEq, Repr

/-- One toggle step of the reveal tween in `ScrollSection`
(src/unnamed/part_012, lines 60-76), whose trigger is configured with
`toggleActions: 'play none none reverse'`: `play` runs the tween to its
revealed end state, `reverse` runs it back to the hidden start state, and
`none` leaves it where it is.  The state recorded here is the converged
visual state once the action's run completes. -/
def toggleStep (s : VState) : TEvent → VState
  | TEvent.onEnter => VState.Revealed
  | TEvent.onLeave => s
  | TEvent.onEnterBack => s
  | TEvent.onLeaveBack => VState.Hidden

/-- Converged visual state after a sequence of toggle events. -/
def convergedFrom (s : VState) (evs : List TEvent) : VState :=
  evs.foldl toggleStep s

/-- One callback invocation of the website IntersectionObserver
(src/website/scroll.js, lines 1-8) for one section: the class `visible` is
added when the entry is intersecting; there is no branch removing it. -/
def observerStep (visible : Bool) (isIntersecting : Bool) : Bool :=
  if isIntersecting then true else visible

/-- Whether a website section carries the `visible` class after a sequence of
intersection reports, starting without it. -/
def visibleAfter (entries : List Bool) : Bool :=
  entries.foldl observerStep false

/-- State of the smooth-scroll machinery mounted by `RootLayout`
(src/app/layout.tsx): whether the container ref is attached, the wrapper
div's own native element scroll position, and the published virtual offset
held by the LocomotiveScroll instance that the mount effect (lines 17-41)
creates over the div.  With `smooth: true` the instance virtualizes
scrolling through transforms and lerped interpolation: the offset it
publishes to sections lives in the instance, not in the div's native scroll
position. -/
structure ScrollContainer where
  mounted : Bool
  nativeX : Int
  nativeY : Int
  publishedOffset : Int
deriving DecidableEq, Repr

/-- The route-change effect of `RootLayout` (src/app/layout.tsx, lines
43-47): it runs on every `pathname` change and, when the container ref is
attached, calls `containerRef.current.scrollTo(0, 0)` — the native
`Element.scrollTo` of the wrapper div, which sets the div's own scroll
position to zero.  The LocomotiveScroll instance is a local variable of the
other effect and is not in scope here; nothing calls the instance's own
`scrollTo` or `update`, so the published virtual offset is left untouched. -/
def onRouteChange (s : ScrollContainer) : ScrollContainer :=
  if s.mounted then { s with nativeX := 0, nativeY := 0 } else s

/-- Observable state of a `ScrollScene` controller
(src/components/ScrollScene.tsx, lines 28-65): the tweens currently owned by
its gsap context, and the log of teardown operations (kills) performed so
far, in order. -/
structure SceneController where
  active : List Tween
  released : List Tween
deriving DecidableEq, Repr

/-- The gsap context built by `ScrollScene`'s mount effect
(src/components/ScrollScene.tsx, lines 31-62): the base reveal tween is
always created, the parallax tween only when the `parallax` prop is set;
nothing has been torn down yet. -/
def mkSceneController (parallax : Bool) : SceneController :=
  { active := [Tween.reveal] ++ (if parallax then [Tween.parallax] else [])
  , released := [] }

/-- `dispose` is the effect cleanup `() => ctx.revert()`
(src/components/ScrollScene.tsx, line 64): `ctx.revert()` kills every
animation currently tracked by the context and empties the context, so each
active tween is appended to the teardown log and the active list becomes
empty.  On an already reverted (empty) context it kills nothing and does not
throw, which is why the function is total. -/
def dispose (c : SceneController) : SceneController :=
  { active := [], released := c.released ++ c.active }

/-- The parallax tween's position mapping (src/components/ScrollScene.tsx,
lines 50-61, and identically src/unnamed/part_012, lines 47-58):
`gsap.to(..., { y: '30%', ease: 'none', scrollTrigger: { scrub: true } })`.
With `scrub: true` the tween progress equals the scroll offset fraction `p`
of the trigger region's traversal, and with `ease: 'none'` the interpolation
is linear, so the translation of an element of height `h` is `3/10 * h * p`. -/
def parallaxY (h p : ℚ) : ℚ :=
  3 / 10 * h * p

/-- The parallax mapping as configured per reveal state: the tween's
configuration (target, `y`, ease, trigger range, scrub) contains no
reference to the in-view signal or the enter/exit reveal tween, so the same
mapping is installed whatever the reveal state is. -/
def parallaxMapping (inView : Bool) : ℚ → ℚ → ℚ :=
  fun h p => parallaxY h p

/-- Ambient browser-side registries a `ScrollSection` touches: the set of
section ids with a registered viewport observation (`useInView` attaches its
observer to the inner div, src/unnamed/part_012, lines 38-41 and 90), and
the live gsap animations tagged with the section that created them. -/
structure DomEnv where
  observed : List Nat
  live : List (Nat × Tween)
deriving DecidableEq, Repr

/-- Mounting a `ScrollSection` with id `sid` (src/unnamed/part_012, lines
38-80): `useInView` registers the observation, and the mount effect creates
its tweens inside a gsap context scoped to this section. -/
def mountSection (sid : Nat) (trigger parallax inView : Bool)
    (env : DomEnv) : DomEnv :=
  { observed := sid :: env.observed
  , live := env.live
      ++ (scrollSectionTweens trigger parallax inView).map (fun tw => (sid, tw)) }

/-- Unmounting a `ScrollSection` with id `sid`: React runs the effect
cleanup `() => ctx.revert()` (src/unnamed/part_012, line 79), which kills
every animation created inside this section's context — exactly the live
animations tagged `sid` — and `useInView`'s own cleanup detaches its
IntersectionObserver from the section's element, removing the
observation. -/
def unmountSection (sid : Nat) (env : DomEnv) : DomEnv :=
  { observed := env.observed.filter (fun o => o ≠ sid)
  , live := env.live.filter (fun a => a.1 ≠ sid) }

/-- Whether the viewport observer can still deliver a callback for section
`sid`: it can only fire for sections with a registered observation. -/
def observerCanFire (env : DomEnv) (sid : Nat) : Bool :=
  env.observed.contains sid

/-- Whether any animation callback can still run against section `sid`'s
node: gsap only ticks animations that are live (not killed). -/
def animCanFire (env : DomEnv) (sid : Nat) : Bool :=
  env.live.any (fun a => a.1 = sid)

/-- States of the per-section animation controller: the reveal tween is at
its hidden start, playing forward, at its revealed end, playing backward, or
its context has been reverted (disposed). -/
inductive CState
  | Hidden
  | Revealing
  | Revealed
  | Reversing
  | Disposed
deriving DecidableEq, Repr

/-- Events driving the controller: an in-view edge from the observer in
either direction, completion of the running tween, and disposal. -/
inductive CEvent
  | enterView
  | exitView
  | finish
  | dispose
deriving DecidableEq, Repr

/-- Transition function of the per-section controller abstraction of the
reveal tween (src/unnamed/part_012, lines 60-80): an enter edge plays the
tween forward (from wherever it stands), an exit edge reverses it, tween
completion lands in the corresponding rest state, duplicate edges in the
same direction change nothing, and `ctx.revert()` (dispose) is terminal. -/
def step : CState → CEvent → CState
  | CState.Disposed, _ => CState.Disposed
  | _, CEvent.dispose => CState.Disposed
  | CState.Hidden, CEvent.enterView => CState.Revealing
  | CState.Hidden, CEvent.exitView => CState.Hidden
  | CState.Hidden, CEvent.finish => CState.Hidden
  | CState.Revealing, CEvent.enterView => CState.Revealing
  | CState.Revealing, CEvent.exitView => CState.Reversing
  | CState.Revealing, CEvent.finish => CState.Revealed
  | CState.Revealed, CEvent.enterView => CState.Revealed
  | CState.Revealed, CEvent.exitView => CState.Reversing
  | CState.Revealed, CEvent.finish => CState.Revealed
  | CState.Reversing, CEvent.enterView => CState.Revealing
  | CState.Reversing, CEvent.exitView => CState.Reversing
  | CState.Reversing, CEvent.finish => CState.Hidden

/-- The edge events `useInView` dispatches to the controller, given the
current boolean value of the in-view signal and the sequence of threshold
samples the browser reports (src/unnamed/part_012, lines 38-41): the hook's
state only changes when a sample differs from the current value, so equal
samples are ignored and each emitted event records the new direction. -/
def observerEvents : Bool → List Bool → List CEvent
  | _, [] => []
  | prev, b :: bs =>
    if b = prev then observerEvents prev bs
    else (if b then CEvent.enterView else CEvent.exitView) :: observerEvents b bs

/-- `wellNested d evs` checks that along `evs`, counting `d` reveal
transitions already started, no exit event is dispatched without a strictly
earlier unmatched enter event. -/
def wellNested : Nat → List CEvent → Bool
  | _, [] => true
  | d, CEvent.enterView :: rest => wellNested (d + 1) rest
  | 0, CEvent.exitView :: _ => false
  | d + 1, CEvent.exitView :: rest => wellNested d rest
  | d, _ :: rest => wellNested d rest

/-- A `fetchMore` call issued by the `DataFeed` (src/components/
ScrollSpinner.tsx, lines 106-111): its `first` and `after` variables. -/
structure FetchCall where
  first : Int
  after : Option String
deriving DecidableEq, Repr

/-- `DataFeed.loadMoreItems` (src/components/ScrollSpinner.tsx, lines
102-114): returns early — issuing no fetch — when there is no next page or a
query is already loading; otherwise issues `fetchMore` with
`first = stopIndex - startIndex + 1` and `after = endCursor`. -/
def loadMoreItems (hasNextPage loading : Bool) (startIndex stopIndex : Int)
    (endCursor : Option String) : Option FetchCall :=
  if !hasNextPage || loading then none
  else some { first := stopIndex - startIndex + 1, after := endCursor }

/-- The `itemCount` passed to both `InfiniteLoader` and the `List`
(src/components/ScrollSpinner.tsx, lines 155 and 161):
`hasNextPage ? items.length + 1 : items.length`. -/
def itemCount (hasNextPage : Bool) (numItems : Nat) : Nat :=
  if hasNextPage then numItems + 1 else numItems

/-- `DataFeed.isItemLoaded` (src/components/ScrollSpinner.tsx, lines
116-119): `!hasNextPage || index < items.length`. -/
def isItemLoaded (hasNextPage : Bool) (numItems : Nat) (index : Nat) : Bool :=
  !hasNextPage || index < numItems

/-- Number of placeholder rows the `Item` renderer produces
(src/components/ScrollSpinner.tsx, lines 121-129): a row at `index` renders
the loading placeholder exactly when `isItemLoaded index` is false, over the
`itemCount` indices of the list. -/
def placeholderRows (hasNextPage : Bool) (numItems : Nat) : Nat :=
  (List.range (itemCount hasNextPage numItems)).countP
    (fun i => !isItemLoaded hasNextPage numItems i)

/-- The authenticated user object as `ProtectedRoute` consumes it. -/
structure AuthUser where
  isAdmin : Bool
deriving DecidableEq, Repr

/-- What `ProtectedRoute` renders. -/
inductive RouteResult
  | navigateLogin (fromLocation : String)
  | navigateDashboard
  | loading
  | children
deriving DecidableEq, Repr

/-- `ProtectedRoute` (src/frontend/src/__tests__/scroll.test.js, lines
21-48): unauthenticated → `Navigate` to `/login` carrying the originating
location; `requireAdmin` with `!user?.isAdmin` (optional chaining on an
absent user yields a falsy value) → `Navigate` to `/dashboard`; user object
not yet loaded → the loading indicator; otherwise the children. -/
def protectedRoute (isAuthenticated : Bool) (user : Option AuthUser)
    (requireAdmin : Bool) (location : String) : RouteResult :=
  if !isAuthenticated then RouteResult.navigateLogin location
  else if requireAdmin && !((user.map AuthUser.isAdmin).getD false) then
    RouteResult.navigateDashboard
  else if user.isNone then RouteResult.loading
  else RouteResult.children

/-! ## Helper lemmas -/

/-- Strengthened observer invariant: starting from in-view value `prev`, the
event stream `useInView` emits is well nested, counting one already started
reveal transition when `prev` is true. -/
theorem wellNested_observerEvents (samples : List Bool) :
    ∀ prev : Bool,
      wellNested (if prev then 1 else 0) (observerEvents prev samples) = true := by
  induction samples with
  | nil => intro prev; cases prev <;> rfl
  | cons b bs ih =>
    intro prev
    cases prev <;> cases b <;> simp_all [observerEvents, wellNested]

/-- Among the first `n` row indices — the loaded ones — none renders the
placeholder, even with a next page pending. -/
theorem countP_unloaded_range (n : Nat) :
    (List.range n).countP (fun i => !isItemLoaded true n i) = 0 := by
  apply List.countP_eq_zero.mpr
  intro a ha
  simp [List.mem_range] at ha
  simp [isItemLoaded, ha]

/-! ## Claims -/

/-- Claim C1, counterexample: at a mount whose observer already reports in
view (default props, empty caller class list), the rendered class set of
`ScrollSection` is exactly the base and snap classes; it contains neither
`is-revealed` (the class `RootLayout` configures LocomotiveScroll with) nor
`visible` (the class the website observer adds) — no revealed marker is
present after the first render, contrary to the claim. -/
theorem c1_counterexample :
    scrollSectionClasses true [] true =
      ["relative", "min-h-screen", "w-full", "snap-start", "snap-always"]
    ∧ "is-revealed" ∉ scrollSectionClasses true [] true
    ∧ "visible" ∉ scrollSectionClasses true [] true := by
  decide

/-- Claim C1, amended: the class set `ScrollSection` renders is the same for
every value of the in-view signal (so no second render pass is ever needed,
because re-rendering cannot change it), and it never contains a revealed
marker unless the caller's own `className` prop supplies one; when the
observer reports in view at mount (and `trigger` is set), the reveal is
instead performed by the mount effect, which creates the reveal tween. -/
theorem c1_reveal_via_effect (snap : Bool) (cn : List String) (v v' t p : Bool) :
    scrollSectionClasses snap cn v = scrollSectionClasses snap cn v'
    ∧ ("is-revealed" ∉ cn → "is-revealed" ∉ scrollSectionClasses snap cn v)
    ∧ ("visible" ∉ cn → "visible" ∉ scrollSectionClasses snap cn v)
    ∧ (Tween.reveal ∈ scrollSectionTweens t p v ↔ (t = true ∧ v = true)) := by
  refine ⟨rfl, ?_, ?_, ?_⟩
  · intro hcn
    cases snap <;> simp_all [scrollSectionClasses]
  · intro hcn
    cases snap <;> simp_all [scrollSectionClasses]
  · cases t <;> cases p <;> cases v <;> simp [scrollSectionTweens]

/-- Witness for C1's amended theorem at a concrete mount. -/
theorem c1_witness :
    scrollSectionClasses true ["mb-4"] true = scrollSectionClasses true ["mb-4"] false
    ∧ "is-revealed" ∉ scrollSectionClasses true ["mb-4"] true
    ∧ "visible" ∉ scrollSectionClasses true ["mb-4"] true
    ∧ (Tween.reveal ∈ scrollSectionTweens true false true ↔ (true = true ∧ true = true)) := by
  have h := c1_reveal_via_effect true ["mb-4"] true false true false
  exact ⟨h.1, h.2.1 (by decide), h.2.2.1 (by decide), h.2.2.2⟩

/-- Claim C2, counterexample: the claim quantifies over all values of the
other props, but the caller's `className` prop is such a prop, and with
`className = "snap-start"` and `snap = false` the rendered class set still
contains the marker `snap-start`. -/
theorem c2_counterexample :
    "snap-start" ∈ scrollSectionClasses false ["snap-start"] true := by
  decide

/-- Claim C2, amended: with `snap = true` both snap markers are present for
every `className` and every in-view value; with `snap = false` the component
itself contributes no snap marker — neither is present unless the caller's
`className` prop already contains it — and the class set is independent of
the in-view signal. -/
theorem c2_snap_markers (snap v : Bool) (cn : List String) :
    (snap = true → "snap-start" ∈ scrollSectionClasses snap cn v
        ∧ "snap-always" ∈ scrollSectionClasses snap cn v)
    ∧ (snap = false → "snap-start" ∉ cn →
        "snap-start" ∉ scrollSectionClasses snap cn v)
    ∧ (snap = false → "snap-always" ∉ cn →
        "snap-always" ∉ scrollSectionClasses snap cn v)
    ∧ scrollSectionClasses snap cn v = scrollSectionClasses snap cn true := by
  refine ⟨?_, ?_, ?_, rfl⟩
  · intro hs; subst hs; simp [scrollSectionClasses]
  · intro hs hcn; subst hs; simp_all [scrollSectionClasses]
  · intro hs hcn; subst hs; simp_all [scrollSectionClasses]

/-- Witness for C2's amended theorem at a concrete render. -/
theorem c2_witness :
    ("snap-start" ∈ scrollSectionClasses true ["p-8"] false
      ∧ "snap-always" ∈ scrollSectionClasses true ["p-8"] false)
    ∧ scrollSectionClasses true ["p-8"] false = scrollSectionClasses true ["p-8"] true := by
  have h := c2_snap_markers true false ["p-8"]
  exact ⟨h.1 rfl, h.2.2.2⟩

/-- Claim C3, counterexample: two sequences of visibility events whose last
event is an exit and whose final visual state is not Hidden.  For the reveal
tween (`toggleActions: 'play none none reverse'`), entering and then leaving
forward past the end (`onLeave`, action `none`) leaves the section Revealed.
For the website observer, intersecting and then leaving keeps the `visible`
class, since the callback never removes it. -/
theorem c3_counterexample :
    convergedFrom VState.Hidden [TEvent.onEnter, TEvent.onLeave] = VState.Revealed
    ∧ visibleAfter [true, false] = true := by
  decide

/-- Claim C3, amended: the reveal is repeatable, but only the backward exit
reverses it.  After any finite sequence of toggle events ending in
`onLeaveBack` (scrolling back up past the start), the section's converged
visual state is Hidden, and a subsequent re-entry reveals it again; exiting
forward (`onLeave`) does not reverse, and the website observer never removes
the `visible` class on any exit. -/
theorem c3_reverse_convergence (s : VState) (evs : List TEvent) (bs : List Bool) :
    convergedFrom s (evs ++ [TEvent.onLeaveBack]) = VState.Hidden
    ∧ convergedFrom s (evs ++ [TEvent.onLeaveBack, TEvent.onEnter]) = VState.Revealed
    ∧ visibleAfter (bs ++ [false]) = visibleAfter bs := by
  refine ⟨?_, ?_, ?_⟩ <;>
    simp [convergedFrom, visibleAfter, List.foldl_append, toggleStep, observerStep]

/-- Claim C4, evaluated at the failing input: a route change with the
container mounted, the wrapper div's native scroll position at rest, and the
LocomotiveScroll instance's published virtual offset at 500.  The effect
zeroes only the div's native scroll position; the published offset the
sections actually receive stays 500, not 0 — the reset the spec requires
never reaches the instance that owns the offset. -/
theorem c4_failing_input :
    (onRouteChange ⟨true, 0, 0, 500⟩).publishedOffset = 500
    ∧ (onRouteChange ⟨true, 0, 0, 500⟩).nativeX = 0
    ∧ (onRouteChange ⟨true, 0, 0, 500⟩).nativeY = 0 := by
  decide

/-- Claim C5: `dispose` (the `ctx.revert()` cleanup of `ScrollScene`) is
idempotent — a second call yields the same state and appends nothing further
to the teardown log — and on a freshly mounted controller the teardown log
after disposal is exactly the list of acquired tweens, which contains each
acquired resource exactly once. -/
theorem c5_dispose_idempotent (c : SceneController) (p : Bool) :
    dispose (dispose c) = dispose c
    ∧ (dispose (dispose c)).released = (dispose c).released
    ∧ (dispose (mkSceneController p)).released = (mkSceneController p).active
    ∧ (mkSceneController p).active.Nodup := by
  refine ⟨?_, ?_, ?_, ?_⟩
  · simp [dispose]
  · simp [dispose]
  · simp [dispose, mkSceneController]
  · cases p <;> decide

/-- Claim C6: the parallax mapping is strictly monotone on the traversal
range for any positive element height, is the same mapping whatever the
reveal state is (the tween configuration never mentions the enter/exit
transition), and is linear in the offset fraction. -/
theorem c6_parallax_linear_monotone (v v' : Bool) (h a b : ℚ)
    (hh : 0 < h) (ha : 0 ≤ a) (hab : a < b) (hb : b ≤ 1) :
    parallaxMapping v h a < parallaxMapping v h b
    ∧ parallaxMapping v = parallaxMapping v'
    ∧ (∀ p q : ℚ, parallaxY h (p + q) = parallaxY h p + parallaxY h q)
    ∧ (∀ k p : ℚ, parallaxY h (k * p) = k * parallaxY h p) := by
  refine ⟨?_, rfl, ?_, ?_⟩
  · have h30 : (0 : ℚ) < 3 / 10 * h := by positivity
    simpa [parallaxMapping, parallaxY, mul_assoc] using
      mul_lt_mul_of_pos_left hab h30
  · intro p q; simp [parallaxY]; ring
  · intro k p; simp [parallaxY]; ring

/-- Witness for C6 at height 1 and offsets 0 < 1/2. -/
theorem c6_witness :
    parallaxMapping true 1 0 < parallaxMapping true 1 (1 / 2)
    ∧ parallaxMapping true = parallaxMapping false :=
  ⟨(c6_parallax_linear_monotone true false 1 0 (1 / 2) (by norm_num) (by norm_num)
      (by norm_num) (by norm_num)).1,
   (c6_parallax_linear_monotone true false 1 0 (1 / 2) (by norm_num) (by norm_num)
      (by norm_num) (by norm_num)).2.1⟩

/-- Claim C7: for every mount-then-unmount of a `ScrollSection`, whatever
props it was mounted with and whatever other observations and animations the
page holds, after the unmount neither the viewport observer nor any
animation callback can fire for that section: its observation is
deregistered and every tween its context created is killed. -/
theorem c7_unmount_releases_all (sid : Nat) (t p v : Bool) (env : DomEnv) :
    observerCanFire (unmountSection sid (mountSection sid t p v env)) sid = false
    ∧ animCanFire (unmountSection sid (mountSection sid t p v env)) sid = false := by
  constructor
  · simp [observerCanFire, unmountSection]
  · simp [animCanFire, unmountSection]

/-- Claim C8: the controller always occupies exactly one of the four
operating states when not disposed; the observer ignores duplicate samples
in the same direction and never emits an exit event without a strictly
earlier unmatched enter event (the stream is well nested from depth 0); and
dispose leads to `Disposed` from every state, which is terminal. -/
theorem c8_state_machine_invariants :
    (∀ s : CState, s ≠ CState.Disposed →
      List.count true
        [decide (s = CState.Hidden), decide (s = CState.Revealing),
          decide (s = CState.Revealed), decide (s = CState.Reversing)] = 1)
    ∧ (∀ (prev : Bool) (bs : List Bool),
        observerEvents prev (prev :: bs) = observerEvents prev bs)
    ∧ (∀ samples : List Bool,
        wellNested 0 (observerEvents false samples) = true)
    ∧ (∀ s : CState, step s CEvent.dispose = CState.Disposed)
    ∧ (∀ e : CEvent, step CState.Disposed e = CState.Disposed) := by
  refine ⟨?_, ?_, ?_, ?_, ?_⟩
  · intro s hs
    cases s <;> first | exact absurd rfl hs | decide
  · intro prev bs; simp [observerEvents]
  · intro samples
    simpa using wellNested_observerEvents samples false
  · intro s; cases s <;> rfl
  · intro e; cases e <;> rfl

/-- Witness for C8 at the Hidden state, a concrete sample stream, and a
disposal from mid-reveal. -/
theorem c8_witness :
    (List.count true
      [decide (CState.Hidden = CState.Hidden), decide (CState.Hidden = CState.Revealing),
        decide (CState.Hidden = CState.Revealed), decide (CState.Hidden = CState.Reversing)] = 1)
    ∧ wellNested 0 (observerEvents false [true, true, false, true]) = true
    ∧ step CState.Revealing CEvent.dispose = CState.Disposed :=
  ⟨c8_state_machine_invariants.1 CState.Hidden (by decide),
   c8_state_machine_invariants.2.2.1 [true, true, false, true],
   c8_state_machine_invariants.2.2.2.1 CState.Revealing⟩

/-- Claim C9: `loadMoreItems` issues no fetch when there is no next page or
a query is loading, and otherwise fetches the requested window after the end
cursor; the rendered item count is the number of loaded items plus one
exactly when a next page is pending, which yields exactly one placeholder
row then and none otherwise; and `isItemLoaded index` holds exactly when
there is no next page or `index` is strictly below the loaded count. -/
theorem c9_datafeed_pagination :
    (∀ (hp ld : Bool) (s t : Int) (c : Option String),
      (hp = false ∨ ld = true) → loadMoreItems hp ld s t c = none)
    ∧ (∀ (hp ld : Bool) (s t : Int) (c : Option String),
      hp = true → ld = false →
        loadMoreItems hp ld s t c = some ⟨t - s + 1, c⟩)
    ∧ (∀ n : Nat, itemCount true n = n + 1 ∧ itemCount false n = n)
    ∧ (∀ (hp : Bool) (n : Nat), placeholderRows hp n = if hp then 1 else 0)
    ∧ (∀ (hp : Bool) (n i : Nat),
      isItemLoaded hp n i = true ↔ (hp = false ∨ i < n)) := by
  refine ⟨?_, ?_, ?_, ?_, ?_⟩
  · rintro hp ld s t c (rfl | rfl) <;> simp [loadMoreItems]
  · rintro hp ld s t c rfl rfl; simp [loadMoreItems]
  · intro n; exact ⟨rfl, rfl⟩
  · intro hp n
    cases hp
    · simp [placeholderRows, itemCount, isItemLoaded]
    · simp [placeholderRows, itemCount, List.range_succ, List.countP_append,
        countP_unloaded_range, isItemLoaded]
  · intro hp n i
    cases hp <;> simp [isItemLoaded]

/-- Witness for C9 on a feed of 4 loaded items with a next page pending. -/
theorem c9_witness :
    loadMoreItems false true 0 9 none = none
    ∧ loadMoreItems true false 0 9 (some "cur") = some ⟨10, some "cur"⟩
    ∧ placeholderRows true 4 = (if true then 1 else 0)
    ∧ (isItemLoaded true 4 2 = true ↔ (true = false ∨ 2 < 4)) :=
  ⟨c9_datafeed_pagination.1 false true 0 9 none (Or.inl rfl),
   by simpa using c9_datafeed_pagination.2.1 true false 0 9 (some "cur") rfl rfl,
   c9_datafeed_pagination.2.2.2.1 true 4,
   c9_datafeed_pagination.2.2.2.2 true 4 2⟩

/-- Claim C10: `ProtectedRoute` renders its children exactly when the user
is authenticated, the user object is loaded and, if admin is required, the
user is an admin; an unauthenticated user is redirected to the login page
carrying the originating location, and an authenticated non-admin hitting an
admin-only route is redirected to the dashboard — children are never
rendered in either redirect case, as the characterization shows. -/
theorem c10_protected_route (auth : Bool) (user : Option AuthUser)
    (ra : Bool) (loc : String) :
    (protectedRoute auth user ra loc = RouteResult.children ↔
      auth = true ∧ user.isSome = true ∧
        (ra = true → (user.map AuthUser.isAdmin).getD false = true))
    ∧ (auth = false → protectedRoute auth user ra loc = RouteResult.navigateLogin loc)
    ∧ (∀ u : AuthUser, auth = true → ra = true → user = some u → u.isAdmin = false →
        protectedRoute auth user ra loc = RouteResult.navigateDashboard) := by
  refine ⟨?_, ?_, ?_⟩
  · cases auth <;> cases ra <;> rcases user with _ | ⟨adm⟩ <;>
      simp [protectedRoute]
  · rintro rfl; simp [protectedRoute]
  · rintro u rfl rfl rfl hadm; simp [protectedRoute, hadm]

/-- Witness for C10 on an admin route with an admin, an anonymous visitor,
and a non-admin. -/
theorem c10_witness :
    (protectedRoute true (some ⟨true⟩) true "/admin" = RouteResult.children ↔
      true = true ∧ (some (⟨true⟩ : AuthUser)).isSome = true ∧
        (true = true → ((some (⟨true⟩ : AuthUser)).map AuthUser.isAdmin).getD false = true))
    ∧ protectedRoute false none false "/dashboard" = RouteResult.navigateLogin "/dashboard"
    ∧ protectedRoute true (some ⟨false⟩) true "/admin" = RouteResult.navigateDashboard :=
  ⟨(c10_protected_route true (some ⟨true⟩) true "/admin").1,
   (c10_protected_route false none false "/dashboard").2.1 rfl,
   (c10_protected_route true (some ⟨false⟩) true "/admin").2.2 ⟨false⟩ rfl rfl rfl rfl⟩
